import Mathlib

/-!
Verification of the opennsfw2 model builder (`src/opennsfw2/model.py`) against its
natural-language specification.

The Python module assembles a fixed-topology residual network with Keras and
initializes every parameterized layer from a pretrained weight archive.  We give
a shallow embedding:

* the weight archive (`WEIGHTS`, a two-level dict) becomes an association list
  `Archive`; `_get_weights` is transcribed with its exact error messages;
* the three layer factories (`_fully_connected`, `_conv2d`, `_batch_norm`)
  become `Except`-valued functions recording which archive keys they fetch and
  which values end up in the layer's parameters (the `tf.constant_initializer`
  calls in the source fetch weights eagerly at construction time);
* the symbolic tensor graph built by `_conv_block`, `_identity_block` and
  `make_open_nsfw_model_and_load_weights` becomes an inductive term type `S`;
  the builders are transcribed line by line at the topology level (layer names,
  filter counts, kernel sizes, strides, paddings and wiring), the weight
  binding being handled by the factory embeddings above;
* numeric array values are modelled as lists of rationals (`float32` values are
  exact rationals; the `astype(np.float32)` cast in `_get_weights` is the
  identity at this level of abstraction), and the real-valued formulas of the
  normalization layer and of the final softmax are stated over `ℝ`.
-/

namespace Opennsfw2

/-- A numeric array from the weight archive, abstracted as a flat list of
rational values (shape/layout are irrelevant to the claims below). -/
abbrev Arr := List ℚ

/-- The two-level weight archive `WEIGHTS : Dict[str, Dict[str, np.ndarray]]`
(model.py line 13), modelled as an association list from layer name to a
parameter bundle, itself an association list from field name to array. -/
abbrev Archive := List (String × List (String × Arr))

/-- Error values raised by the module.  `valueError` models the Python
`ValueError` raised by `_get_weights` (model.py lines 20 and 24); `loadError`
models the spec-level LoadError class for failures of the initial archive load
(`np.load`, line 13), which surfaces as a distinct exception kind. -/
inductive Err
  | loadError (msg : String)
  | valueError (msg : String)
deriving DecidableEq, Repr

/-- Transcription of `_get_weights` (model.py lines 18-26):
membership test on the layer name, then on the field name, raising
`ValueError` with the source's exact message on the failing key; on success the
stored array is returned (the `astype(np.float32)` cast is the identity here,
as array values are already modelled as exact rationals). -/
def _get_weights (W : Archive) (layer_name field_name : String) : Except Err Arr :=
  match W.lookup layer_name with
  | none => Except.error (Err.valueError ("No weights found for layer " ++ layer_name ++ "."))
  | some w =>
    match w.lookup field_name with
    | none =>
        Except.error (Err.valueError ("No field " ++ field_name ++ " in layer " ++ layer_name ++ "."))
    | some a => Except.ok a

/-- Boolean test that `p` is a prefix of the second list (character lists). -/
def listPrefixOf : List Char → List Char → Bool
  | [], _ => true
  | _ :: _, [] => false
  | a :: as, b :: bs => if a = b then listPrefixOf as bs else false

/-- Boolean test that `p` occurs contiguously inside the second list. -/
def listInfixOf (p : List Char) : List Char → Bool
  | [] => p.isEmpty
  | b :: bs => listPrefixOf p (b :: bs) || listInfixOf p bs

/-- A string `s` names (contains as a contiguous substring) the string `pat`. -/
def strContainsSub (s pat : String) : Bool := listInfixOf pat.data s.data

theorem listPrefixOf_refl_append (p t : List Char) : listPrefixOf p (p ++ t) = true := by
  induction p with
  | nil => rfl
  | cons a as ih => simp [listPrefixOf, ih]

theorem listInfixOf_here (p t : List Char) : listInfixOf p (p ++ t) = true := by
  cases h : p ++ t with
  | nil =>
    have hp : p = [] := by cases p <;> simp_all
    subst hp
    simp [listInfixOf, List.isEmpty]
  | cons b bs =>
    have hp : listPrefixOf p (b :: bs) = true := by
      rw [← h]
      exact listPrefixOf_refl_append p t
    simp [listInfixOf, hp]

theorem listInfixOf_append_pre (pre p s : List Char) (h : listInfixOf p s = true) :
    listInfixOf p (pre ++ s) = true := by
  induction pre with
  | nil => simpa using h
  | cons b bs ih => simp [listInfixOf, ih]

/-- If the haystack is literally `pre ++ mid ++ suf` (at the character level),
it contains `mid`. -/
theorem strContains_data (s mid : String) (pre suf : List Char)
    (h : s.data = pre ++ (mid.data ++ suf)) : strContainsSub s mid = true := by
  unfold strContainsSub
  rw [h]
  exact listInfixOf_append_pre _ _ _ (listInfixOf_here _ _)

theorem string_append_data (a b : String) : (a ++ b).data = a.data ++ b.data := rfl

/-- C2 as stated: every lookup with both keys present returns the stored array,
and every failing lookup raises an error whose message names both the layer and
the field of the missing key. -/
def C2Claim : Prop :=
  ∀ (W : Archive) (L f : String),
    (∀ w a, W.lookup L = some w → w.lookup f = some a → _get_weights W L f = Except.ok a) ∧
    ((W.lookup L = none ∨ ∃ w, W.lookup L = some w ∧ w.lookup f = none) →
      ∃ msg, _get_weights W L f = Except.error (Err.valueError msg) ∧
        strContainsSub msg L = true ∧ strContainsSub msg f = true)

/-- C2 (counterexample): on the empty archive, looking up layer `"conv_1"`
field `"kernel"` fails with message `"No weights found for layer conv_1."`,
which does not name the field `"kernel"`; so the claim as stated is false. -/
theorem c2_counter : ¬ C2Claim := by
  intro hC
  obtain ⟨-, h2⟩ := hC [] "conv_1" "kernel"
  obtain ⟨msg, hmsg, -, hf⟩ := h2 (Or.inl rfl)
  have hmsg' : msg = "No weights found for layer conv_1." := by
    have hcomp : _get_weights [] "conv_1" "kernel"
        = Except.error (Err.valueError "No weights found for layer conv_1.") := rfl
    rw [hcomp] at hmsg
    simpa using hmsg.symm
  subst hmsg'
  exact absurd hf (by decide)

/-- C2 (amended): `_get_weights` returns the stored array when both keys are
present; when the layer key is absent it fails hard with the `ValueError`
(spec-level LookupError) message `"No weights found for layer {L}."`, which
names the missing layer; when the layer is present but the field is absent it
fails hard with `"No field {f} in layer {L}."`, naming both the missing field
and its layer; and the lookup-failure error class is distinct from the
load-failure class.  It never returns a silent default. -/
theorem c2_lookup_contract (W : Archive) (L f : String) :
    (∀ w a, W.lookup L = some w → w.lookup f = some a → _get_weights W L f = Except.ok a) ∧
    (W.lookup L = none →
      _get_weights W L f
          = Except.error (Err.valueError ("No weights found for layer " ++ L ++ ".")) ∧
      strContainsSub ("No weights found for layer " ++ L ++ ".") L = true) ∧
    (∀ w, W.lookup L = some w → w.lookup f = none →
      _get_weights W L f
          = Except.error (Err.valueError ("No field " ++ f ++ " in layer " ++ L ++ ".")) ∧
      strContainsSub ("No field " ++ f ++ " in layer " ++ L ++ ".") f = true ∧
      strContainsSub ("No field " ++ f ++ " in layer " ++ L ++ ".") L = true) ∧
    (∀ m m', (Err.valueError m : Err) ≠ Err.loadError m') := by
  refine ⟨?_, ?_, ?_, ?_⟩
  · intro w a hw ha
    simp [_get_weights, hw, ha]
  · intro hw
    constructor
    · simp [_get_weights, hw]
    · refine strContains_data _ _ "No weights found for layer ".data ".".data ?_
      simp [string_append_data]
  · intro w hw hf
    refine ⟨?_, ?_, ?_⟩
    · simp [_get_weights, hw, hf]
    · refine strContains_data _ _ "No field ".data (" in layer ".data ++ L.data ++ ".".data) ?_
      simp [string_append_data]
    · refine strContains_data _ _ ("No field ".data ++ f.data ++ " in layer ".data) ".".data ?_
      simp [string_append_data]
  · intro m m' h
    exact Err.noConfusion h

/-- Archive used to exercise `c2_lookup_contract` on concrete inputs. -/
def bnArchive : Archive :=
  [("bn_1", [("scale", [1]), ("offset", [0]), ("mean", [0]), ("variance", [1])])]

/-- C2 witness: the amended contract evaluated on concrete archives — a
successful lookup, a missing layer, and a missing field. -/
theorem c2_lookup_contract_witness :
    (_get_weights bnArchive "bn_1" "scale" = Except.ok [1]) ∧
    (_get_weights ([] : Archive) "conv_1" "kernel"
        = Except.error (Err.valueError "No weights found for layer conv_1.")) ∧
    (_get_weights bnArchive "bn_1" "kernel"
        = Except.error (Err.valueError "No field kernel in layer bn_1.")) := by
  refine ⟨?_, ?_, ?_⟩
  · exact (c2_lookup_contract bnArchive "bn_1" "scale").1 _ _ rfl rfl
  · exact ((c2_lookup_contract ([] : Archive) "conv_1" "kernel").2.1 rfl).1
  · exact ((c2_lookup_contract bnArchive "bn_1" "kernel").2.2.1 _ rfl rfl).1

/-- Padding mode of a convolution/pooling layer: `"same"` or `"valid"`. -/
inductive Padding
  | same
  | valid
deriving DecidableEq, Repr

/-- A constructed `layers.Dense` with its constant-initialized parameters. -/
structure Dense where
  name : String
  units : Nat
  kernel : Arr
  bias : Arr
deriving DecidableEq, Repr

/-- A constructed `layers.Conv2D` with its constant-initialized parameters. -/
structure Conv2D where
  name : String
  filters : Nat
  kernelSize : Nat
  stride : Nat
  padding : Padding
  kernel : Arr
  bias : Arr
deriving DecidableEq, Repr

/-- A constructed `layers.BatchNormalization` with its constant-initialized
parameters and its fixed epsilon. -/
structure BatchNorm where
  name : String
  epsilon : ℚ
  scale : Arr
  offset : Arr
  mean : Arr
  variance : Arr
deriving DecidableEq, Repr

/-- Transcription of `_fully_connected` (model.py lines 29-39): a dense layer
whose kernel and bias initializers eagerly fetch `_get_weights(name, "weights")`
and `_get_weights(name, "biases")`, in that evaluation order, the first failure
aborting construction. -/
def _fully_connected (W : Archive) (name : String) (units : Nat) : Except Err Dense :=
  match _get_weights W name "weights", _get_weights W name "biases" with
  | Except.ok k, Except.ok b =>
      Except.ok { name := name, units := units, kernel := k, bias := b }
  | Except.error e, _ => Except.error e
  | _, Except.error e => Except.error e

/-- Transcription of `_conv2d` (model.py lines 42-61): a 2-D convolution whose
kernel and bias initializers eagerly fetch `_get_weights(name, "weights")` and
`_get_weights(name, "biases")`, the first failure aborting construction.  (The
source declares a `padding="same"` default; every call site passes the padding
explicitly, so no default is modelled.) -/
def _conv2d (W : Archive) (name : String) (num_filters kernel_size stride : Nat)
    (padding : Padding) : Except Err Conv2D :=
  match _get_weights W name "weights", _get_weights W name "biases" with
  | Except.ok k, Except.ok b =>
      Except.ok { name := name, filters := num_filters, kernelSize := kernel_size,
                  stride := stride, padding := padding, kernel := k, bias := b }
  | Except.error e, _ => Except.error e
  | _, Except.error e => Except.error e

/-- Transcription of `_batch_norm` (model.py lines 64-80): a normalization
layer with `epsilon=1e-05` whose gamma/beta/moving-mean/moving-variance
initializers eagerly fetch the fields `"scale"`, `"offset"`, `"mean"` and
`"variance"` of the layer's own name, in that evaluation order. -/
def _batch_norm (W : Archive) (name : String) : Except Err BatchNorm :=
  match _get_weights W name "scale", _get_weights W name "offset",
        _get_weights W name "mean", _get_weights W name "variance" with
  | Except.ok s, Except.ok o, Except.ok m, Except.ok v =>
      Except.ok { name := name, epsilon := 1e-5, scale := s, offset := o,
                  mean := m, variance := v }
  | Except.error e, _, _, _ => Except.error e
  | _, Except.error e, _, _ => Except.error e
  | _, _, Except.error e, _ => Except.error e
  | _, _, _, Except.error e => Except.error e

/-- C3 as stated: every convolution layer the factory builds takes its kernel
from `get(name, "kernel")` and its bias from `get(name, "bias")`. -/
def C3Claim : Prop :=
  ∀ (W : Archive) (name : String) (nf ks st : Nat) (p : Padding) (c : Conv2D),
    _conv2d W name nf ks st p = Except.ok c →
    _get_weights W name "kernel" = Except.ok c.kernel ∧
    _get_weights W name "bias" = Except.ok c.bias

/-- Archive holding one convolution bundle under the field names the source
actually uses. -/
def convArchive : Archive := [("conv_1", [("weights", [2]), ("biases", [3])])]

/-- The convolution layer `_conv2d` builds from `convArchive`. -/
def convVal : Conv2D :=
  { name := "conv_1", filters := 64, kernelSize := 7, stride := 2,
    padding := Padding.valid, kernel := [2], bias := [3] }

/-- C3 (counterexample): on an archive whose `"conv_1"` bundle has fields
`"weights"` and `"biases"`, `_conv2d` succeeds, yet `get("conv_1", "kernel")`
fails — so the kernel is not initialized from the role `"kernel"` and the claim
as stated is false. -/
theorem c3_counter : ¬ C3Claim := by
  intro hC
  have hok : _conv2d convArchive "conv_1" 64 7 2 Padding.valid = Except.ok convVal := rfl
  have h := (hC convArchive "conv_1" 64 7 2 Padding.valid convVal hok).1
  have hbad : _get_weights convArchive "conv_1" "kernel"
      = Except.error (Err.valueError "No field kernel in layer conv_1.") := rfl
  rw [hbad] at h
  exact Except.noConfusion h

/-- C3 (amended): the parameter roles `_conv2d` uses for the two-part weight
keys are `"weights"` (kernel) and `"biases"` (bias): whenever construction
succeeds, the layer's kernel is exactly the array stored under
`get(name, "weights")` and its bias the one under `get(name, "biases")`. -/
theorem c3_conv_weight_roles (W : Archive) (name : String) (nf ks st : Nat)
    (p : Padding) (c : Conv2D)
    (h : _conv2d W name nf ks st p = Except.ok c) :
    _get_weights W name "weights" = Except.ok c.kernel ∧
    _get_weights W name "biases" = Except.ok c.bias := by
  unfold _conv2d at h
  cases hk : _get_weights W name "weights" with
  | error e => rw [hk] at h; simp at h
  | ok k =>
    cases hb : _get_weights W name "biases" with
    | error e => rw [hk, hb] at h; simp at h
    | ok b =>
      rw [hk, hb] at h
      simp at h
      subst h
      exact ⟨rfl, rfl⟩

/-- C3 witness: the amended statement evaluated on `convArchive`. -/
theorem c3_conv_weight_roles_witness :
    _conv2d convArchive "conv_1" 64 7 2 Padding.valid = Except.ok convVal ∧
    (_get_weights convArchive "conv_1" "weights" = Except.ok convVal.kernel ∧
     _get_weights convArchive "conv_1" "biases" = Except.ok convVal.bias) :=
  ⟨rfl, c3_conv_weight_roles convArchive "conv_1" 64 7 2 Padding.valid convVal rfl⟩

/-- Inference-time computation of a Keras `BatchNormalization` layer on one
channel value: `gamma * (x - moving_mean) / sqrt(moving_variance + epsilon)
+ beta`, with `gamma` initialized from `"scale"` and `beta` from `"offset"`. -/
noncomputable def batchNormApply (gamma beta mean variance eps x : ℝ) : ℝ :=
  gamma * ((x - mean) / Real.sqrt (variance + eps)) + beta

/-- The spec's wording of the normalization map:
`(x - mean) / sqrt(variance + eps) * scale + offset`. -/
noncomputable def bnSpecFormula (scale offset mean variance eps x : ℝ) : ℝ :=
  (x - mean) / Real.sqrt (variance + eps) * scale + offset

/-- C4: every normalization layer the factory builds uses the fixed epsilon
`1e-5 = 1/100000`, draws exactly its four parameters (scale, offset, running
mean, running variance) from the store under the layer's own name, and the
per-channel affine map it computes equals the spec's
`(x - mean) / sqrt(variance + eps) * scale + offset`. -/
theorem c4_batch_norm_contract (W : Archive) (name : String) (b : BatchNorm)
    (h : _batch_norm W name = Except.ok b) :
    b.epsilon = 1 / 100000 ∧
    _get_weights W name "scale" = Except.ok b.scale ∧
    _get_weights W name "offset" = Except.ok b.offset ∧
    _get_weights W name "mean" = Except.ok b.mean ∧
    _get_weights W name "variance" = Except.ok b.variance ∧
    (∀ g be m v e x : ℝ, batchNormApply g be m v e x = bnSpecFormula g be m v e x) := by
  unfold _batch_norm at h
  cases hs : _get_weights W name "scale" with
  | error e => rw [hs] at h; simp at h
  | ok s =>
    cases ho : _get_weights W name "offset" with
    | error e => rw [hs, ho] at h; simp at h
    | ok o =>
      cases hm : _get_weights W name "mean" with
      | error e => rw [hs, ho, hm] at h; simp at h
      | ok m =>
        cases hv : _get_weights W name "variance" with
        | error e => rw [hs, ho, hm, hv] at h; simp at h
        | ok v =>
          rw [hs, ho, hm, hv] at h
          simp at h
          subst h
          refine ⟨by norm_num, rfl, rfl, rfl, rfl, ?_⟩
          intro g be mm vv e x
          unfold batchNormApply bnSpecFormula
          ring

/-- The normalization layer `_batch_norm` builds from `bnArchive`. -/
def bnVal : BatchNorm :=
  { name := "bn_1", epsilon := 1e-5, scale := [1], offset := [0],
    mean := [0], variance := [1] }

/-- C4 witness: the contract evaluated on the concrete archive `bnArchive`. -/
theorem c4_batch_norm_contract_witness :
    _batch_norm bnArchive "bn_1" = Except.ok bnVal ∧
    (bnVal.epsilon = 1 / 100000 ∧
     _get_weights bnArchive "bn_1" "scale" = Except.ok bnVal.scale ∧
     _get_weights bnArchive "bn_1" "offset" = Except.ok bnVal.offset ∧
     _get_weights bnArchive "bn_1" "mean" = Except.ok bnVal.mean ∧
     _get_weights bnArchive "bn_1" "variance" = Except.ok bnVal.variance ∧
     (∀ g be m v e x : ℝ, batchNormApply g be m v e x = bnSpecFormula g be m v e x)) :=
  ⟨rfl, c4_batch_norm_contract bnArchive "bn_1" bnVal rfl⟩

/-- Symbolic tensor of the Keras functional graph, at the topology level: each
node records the layer kind and its shape parameters exactly as passed at the
corresponding construction site in `model.py` (layer name, filter count,
kernel size, stride, padding).  The weight binding performed inside each
`_conv2d`/`_batch_norm`/`_fully_connected` call is modelled by the `Except`
factories above.  `pad n x` stands for `tf.pad` with `[[0,0],[n,n],[n,n],[0,0]]`
(symmetric padding of both spatial edges); `reshape` records the Keras target
shape, which excludes the batch axis and may use `-1` for an inferred axis. -/
inductive S
  | input (shape : Nat × Nat × Nat)
  | pad (amount : Nat) (x : S)
  | conv (name : String) (filters kernelSize stride : Nat) (padding : Padding) (x : S)
  | bn (name : String) (x : S)
  | relu (x : S)
  | maxPool (poolSize stride : Nat) (padding : Padding) (x : S)
  | avgPool (name : String) (poolSize stride : Nat) (padding : Padding) (x : S)
  | reshape (targetShape : List Int) (x : S)
  | dense (name : String) (units : Nat) (x : S)
  | softmaxOp (x : S)
  | add (x y : S)
deriving DecidableEq, Repr

/-- Transcription of `_conv_block` (model.py lines 83-138) at the topology
level: learned shortcut (1x1 conv with `num_filters_3` at the given stride,
then normalization), main path `2a`/`2b`/`2c`, output
`relu(main + shortcut)`.  Layer names are built exactly as in the source.
(The source declares defaults `kernel_size=3, stride=2`; every call site
passes both explicitly, so no defaults are modelled.) -/
def _conv_block (stage block : Nat) (inputs : S) (nums_filters : Nat × Nat × Nat)
    (kernel_size stride : Nat) : S :=
  let (num_filters_1, num_filters_2, num_filters_3) := nums_filters
  let conv_name_base := "conv_stage" ++ toString stage ++ "_block" ++ toString block ++ "_branch"
  let bn_name_base := "bn_stage" ++ toString stage ++ "_block" ++ toString block ++ "_branch"
  let shortcut_name_post :=
    "_stage" ++ toString stage ++ "_block" ++ toString block ++ "_proj_shortcut"
  let shortcut := S.conv ("conv" ++ shortcut_name_post) num_filters_3 1 stride Padding.same inputs
  let shortcut := S.bn ("bn" ++ shortcut_name_post) shortcut
  let x := S.conv (conv_name_base ++ "2a") num_filters_1 1 stride Padding.same inputs
  let x := S.bn (bn_name_base ++ "2a") x
  let x := S.relu x
  let x := S.conv (conv_name_base ++ "2b") num_filters_2 kernel_size 1 Padding.same x
  let x := S.bn (bn_name_base ++ "2b") x
  let x := S.relu x
  let x := S.conv (conv_name_base ++ "2c") num_filters_3 1 1 Padding.same x
  let x := S.bn (bn_name_base ++ "2c") x
  let x := S.add x shortcut
  S.relu x

/-- Transcription of `_identity_block` (model.py lines 141-184) at the
topology level: main path `2a`/`2b`/`2c` with all strides 1, shortcut the
unmodified input, output `relu(main + inputs)`. -/
def _identity_block (stage block : Nat) (inputs : S) (nums_filters : Nat × Nat × Nat)
    (kernel_size : Nat) : S :=
  let (num_filters_1, num_filters_2, num_filters_3) := nums_filters
  let conv_name_base := "conv_stage" ++ toString stage ++ "_block" ++ toString block ++ "_branch"
  let bn_name_base := "bn_stage" ++ toString stage ++ "_block" ++ toString block ++ "_branch"
  let x := S.conv (conv_name_base ++ "2a") num_filters_1 1 1 Padding.same inputs
  let x := S.bn (bn_name_base ++ "2a") x
  let x := S.relu x
  let x := S.conv (conv_name_base ++ "2b") num_filters_2 kernel_size 1 Padding.same x
  let x := S.bn (bn_name_base ++ "2b") x
  let x := S.relu x
  let x := S.conv (conv_name_base ++ "2c") num_filters_3 1 1 Padding.same x
  let x := S.bn (bn_name_base ++ "2c") x
  let x := S.add x inputs
  S.relu x

/-- Transcription of `make_open_nsfw_model_and_load_weights`
(model.py lines 187-254) at the topology level, line by line. -/
def make_open_nsfw_model_and_load_weights (input_shape : Nat × Nat × Nat) : S :=
  let image_input := S.input input_shape
  let x := image_input
  let x := S.pad 3 x
  let x := S.conv "conv_1" 64 7 2 Padding.valid x
  let x := S.bn "bn_1" x
  let x := S.relu x
  let x := S.maxPool 3 2 Padding.same x
  let x := _conv_block 0 0 x (32, 32, 128) 3 1
  let x := _identity_block 0 1 x (32, 32, 128) 3
  let x := _identity_block 0 2 x (32, 32, 128) 3
  let x := _conv_block 1 0 x (64, 64, 256) 3 2
  let x := _identity_block 1 1 x (64, 64, 256) 3
  let x := _identity_block 1 2 x (64, 64, 256) 3
  let x := _identity_block 1 3 x (64, 64, 256) 3
  let x := _conv_block 2 0 x (128, 128, 512) 3 2
  let x := _identity_block 2 1 x (128, 128, 512) 3
  let x := _identity_block 2 2 x (128, 128, 512) 3
  let x := _identity_block 2 3 x (128, 128, 512) 3
  let x := _identity_block 2 4 x (128, 128, 512) 3
  let x := _identity_block 2 5 x (128, 128, 512) 3
  let x := _conv_block 3 0 x (256, 256, 1024) 3 2
  let x := _identity_block 3 1 x (256, 256, 1024) 3
  let x := _identity_block 3 2 x (256, 256, 1024) 3
  let x := S.avgPool "pool" 7 1 Padding.valid x
  let x := S.reshape [-1, 1024] x
  let logits := S.dense "fc_nsfw" 2 x
  S.softmaxOp logits

/-- The default value of the `input_shape` parameter (model.py line 188). -/
def defaultInputShape : Nat × Nat × Nat := (224, 224, 3)

/-- C1 spec side: the stem as the claim words it — zero-pad by 3 on each
spatial edge, 7x7 convolution with 64 filters stride 2 no padding,
normalization, ReLU, 3x3 max-pool stride 2 same padding. -/
def claimedStem (x : S) : S :=
  S.maxPool 3 2 Padding.same
    (S.relu (S.bn "bn_1" (S.conv "conv_1" 64 7 2 Padding.valid (S.pad 3 x))))

/-- C1 spec side: one residual stage as the claim words it — 1 projection
block (at the given stride) followed by `nId` identity blocks, all with the
same filter-width tuple and kernel size 3. -/
def claimedStage (stage : Nat) (nf : Nat × Nat × Nat) (stride nId : Nat) (x : S) : S :=
  (List.range nId).foldl (fun acc i => _identity_block stage (i + 1) acc nf 3)
    (_conv_block stage 0 x nf 3 stride)

/-- C1 spec side: exactly one head, ending in a 2-way softmax (the head's
average-pool/reshape components are the assembler's, cf. C7). -/
def claimedHead (x : S) : S :=
  S.softmaxOp (S.dense "fc_nsfw" 2 (S.reshape [-1, 1024]
    (S.avgPool "pool" 7 1 Padding.valid x)))

/-- C1 spec side: the full claimed topology — stem, then four stages with
1 projection block plus 2, 3, 5 and 2 identity blocks (block counts 3, 4, 6,
3), filter tuples (32,32,128), (64,64,256), (128,128,512), (256,256,1024),
projection strides 1, 2, 2, 2, then exactly one head ending in a 2-way
softmax. -/
def claimedModel (shape : Nat × Nat × Nat) : S :=
  claimedHead
    (claimedStage 3 (256, 256, 1024) 2 2
      (claimedStage 2 (128, 128, 512) 2 5
        (claimedStage 1 (64, 64, 256) 2 3
          (claimedStage 0 (32, 32, 128) 1 2
            (claimedStem (S.input shape))))))

/-- C1: for every input shape, the network the assembler builds is exactly the
claimed fixed topology: the claimed stem, four stages of 1 projection block
plus {2, 3, 5, 2} identity blocks with filter tuples (32,32,128), (64,64,256),
(128,128,512), (256,256,1024) and projection strides 1, 2, 2, 2, and exactly
one head ending in a 2-way softmax. -/
theorem c1_fixed_topology (s : Nat × Nat × Nat) :
    make_open_nsfw_model_and_load_weights s = claimedModel s := rfl

/-- C5 spec side: the projection block's shortcut path as the claim words it —
a 1x1 convolution with `c3` filters at the block's stride, followed by
normalization, applied to the block input.  (Layer names follow the source's
deterministic naming scheme, about which the claim is silent.) -/
def projShortcutSpec (stage block : Nat) (inputs : S) (c3 stride : Nat) : S :=
  let post := "_stage" ++ toString stage ++ "_block" ++ toString block ++ "_proj_shortcut"
  S.bn ("bn" ++ post) (S.conv ("conv" ++ post) c3 1 stride Padding.same inputs)

/-- C5/C6 spec side: the main path as the claim words it — 1x1 conv (`c1`, at
the given stride) → norm → ReLU → kxk conv (`c2`, stride 1) → norm → ReLU →
1x1 conv (`c3`, stride 1) → norm, applied to the block input. -/
def projMainSpec (stage block : Nat) (inputs : S) (c1 c2 c3 ks stride : Nat) : S :=
  let cb := "conv_stage" ++ toString stage ++ "_block" ++ toString block ++ "_branch"
  let bb := "bn_stage" ++ toString stage ++ "_block" ++ toString block ++ "_branch"
  S.bn (bb ++ "2c") (S.conv (cb ++ "2c") c3 1 1 Padding.same
    (S.relu (S.bn (bb ++ "2b") (S.conv (cb ++ "2b") c2 ks 1 Padding.same
      (S.relu (S.bn (bb ++ "2a") (S.conv (cb ++ "2a") c1 1 stride Padding.same inputs)))))))

/-- C5: every projection block computes activation(main + shortcut) with the
shortcut and main paths exactly as the claim describes them, both applied to
the block input. -/
theorem c5_conv_block_structure (stage block : Nat) (inputs : S)
    (nf : Nat × Nat × Nat) (ks stride : Nat) :
    _conv_block stage block inputs nf ks stride =
      S.relu (S.add (projMainSpec stage block inputs nf.1 nf.2.1 nf.2.2 ks stride)
                    (projShortcutSpec stage block inputs nf.2.2 stride)) := by
  obtain ⟨a, b, c⟩ := nf
  rfl

/-- Extracts the main path of a residual block output `relu(add main shortcut)`. -/
def mainOf : S → S
  | S.relu (S.add m _) => m
  | t => t

/-- C6: every identity block's main path is exactly the projection block's
main path with every stride equal to 1 (same layer kinds, kernel sizes, filter
widths and naming scheme, in the same order), its shortcut is the unmodified
block input (no new parameters appear), and its output is
activation(main + input). -/
theorem c6_identity_block_structure (stage block : Nat) (inputs : S)
    (nf : Nat × Nat × Nat) (ks : Nat) :
    _identity_block stage block inputs nf ks =
      S.relu (S.add (mainOf (_conv_block stage block inputs nf ks 1)) inputs) := by
  obtain ⟨a, b, c⟩ := nf
  rfl

/-- C7 as stated: the head applies, in order, a 7x7 average pool with stride 1
and no padding, a reshape to a flat (rank-1) 1024-wide feature vector, a dense
layer to 2 units, and a softmax. -/
def headClaimStated (x : S) : S :=
  S.softmaxOp (S.dense "fc_nsfw" 2 (S.reshape [1024]
    (S.avgPool "pool" 7 1 Padding.valid x)))

/-- C7 as stated, over the whole model. -/
def C7Claim : Prop :=
  ∀ s : Nat × Nat × Nat, ∃ body,
    make_open_nsfw_model_and_load_weights s = headClaimStated body

/-- The Keras reshape target of the model's head, when the model ends in
softmax → dense → reshape. -/
def headReshapeTarget : S → Option (List Int)
  | S.softmaxOp (S.dense _ _ (S.reshape t _)) => some t
  | _ => none

/-- C7 (counterexample): the assembled model's head reshapes to target
`(-1, 1024)` (an inferred leading axis), not to a flat rank-1 1024-vector, so
the claim as stated is false. -/
theorem c7_counter : ¬ C7Claim := by
  intro hC
  obtain ⟨body, hb⟩ := hC (224, 224, 3)
  have h1 : headReshapeTarget (make_open_nsfw_model_and_load_weights (224, 224, 3))
      = some [-1, 1024] := rfl
  rw [hb] at h1
  have h2 : headReshapeTarget (headClaimStated body) = some [1024] := rfl
  rw [h2] at h1
  exact absurd h1 (by decide)

/-- C7 (amended): the head applies, in order, a 7x7 average pool with stride 1
and no padding, a reshape of the pooled features to target shape `(-1, 1024)` —
a 1024-wide trailing feature axis with an inferred leading axis (equal to 1 for
the 224x224 input), not a flat rank-1 vector — a dense layer to 2 units, and a
softmax producing the class-probability output. -/
theorem c7_head_structure (s : Nat × Nat × Nat) :
    ∃ body, make_open_nsfw_model_and_load_weights s = claimedHead body :=
  ⟨_, rfl⟩

/-- The shape stored in the model's input tensor slot (the graph's innermost
`Input` node; for `add` nodes both operands descend from the same input, so
the left branch is followed). -/
def inputShapeOf : S → Option (Nat × Nat × Nat)
  | S.input sh => some sh
  | S.pad _ x => inputShapeOf x
  | S.conv _ _ _ _ _ x => inputShapeOf x
  | S.bn _ x => inputShapeOf x
  | S.relu x => inputShapeOf x
  | S.maxPool _ _ _ x => inputShapeOf x
  | S.avgPool _ _ _ _ x => inputShapeOf x
  | S.reshape _ x => inputShapeOf x
  | S.dense _ _ x => inputShapeOf x
  | S.softmaxOp x => inputShapeOf x
  | S.add x _ => inputShapeOf x

/-- C10: the builder does not enforce the declared 224x224x3 input shape —
`input_shape` is an ordinary parameter whose default is (224, 224, 3), and for
every caller-supplied shape the assembler stores exactly that shape, verbatim,
in the input tensor slot, with no validation against the declared interface
shape. -/
theorem c10_input_shape_verbatim :
    (∀ s : Nat × Nat × Nat,
      inputShapeOf (make_open_nsfw_model_and_load_weights s) = some s) ∧
    defaultInputShape = (224, 224, 3) :=
  ⟨fun _ => rfl, rfl⟩

/-- Keras merge-layer rule for one dimension (from the layer library the
source's `layers.Add()` call delegates to): equal dimensions pass through, a
dimension of 1 broadcasts against the other, and any other disagreement is a
construction-time `ValueError` ("Operands could not be broadcast together"),
modelled as `none`. -/
def mergeDim (i j : Nat) : Option Nat :=
  if i = j then some i else if i = 1 then some j else if j = 1 then some i else none

/-- Channel count of a symbolic tensor, as the Keras functional API propagates
it while the graph is being constructed: convolutions and dense layers set it
to their filter/unit count, element-wise and pooling layers preserve it, a
reshape's is the last entry of its target shape, and `add` applies the
merge-layer broadcast rule — `none` models a construction-time shape error,
raised before any evaluation. -/
def outChannels : S → Option Nat
  | S.input sh => some sh.2.2
  | S.pad _ x => outChannels x
  | S.conv _ filters _ _ _ x => (outChannels x).bind fun _ => some filters
  | S.bn _ x => outChannels x
  | S.relu x => outChannels x
  | S.maxPool _ _ _ x => outChannels x
  | S.avgPool _ _ _ _ x => outChannels x
  | S.reshape t x => (outChannels x).bind fun _ => t.getLast?.map Int.toNat
  | S.dense _ u x => (outChannels x).bind fun _ => some u
  | S.softmaxOp x => outChannels x
  | S.add x y => (outChannels x).bind fun a => (outChannels y).bind fun b => mergeDim a b

/-- C8 as stated: constructing an identity block whose filter widths do not
reduce back to the input channel count fails at construction time (its shape
validation yields no output shape), before any evaluation. -/
def C8Claim : Prop :=
  ∀ (stage block h w cin c1 c2 c3 ks : Nat),
    c3 ≠ cin →
    outChannels (_identity_block stage block (S.input (h, w, cin)) (c1, c2, c3) ks) = none

/-- C8 (counterexample): an identity block with filter widths (32, 32, 1) on a
128-channel input has a main-path output channel count (1) different from the
input's (128), yet construction succeeds — the add layer silently broadcasts
the width-1 channel axis and yields 128 channels — so the claim as stated is
false. -/
theorem c8_counter : ¬ C8Claim := by
  intro hC
  have h := hC 0 1 56 56 128 32 32 1 3 (by decide)
  exact absurd h (by decide)

/-- C8 (amended): constructing an identity block fails at construction time
(before any evaluation, with the construction-time shape error of the add
layer) exactly when the configured output width `c3` and the input channel
count are not broadcast-compatible: they differ and neither is 1.  When either
is 1 the shortcut addition silently broadcasts instead of failing. -/
theorem c8_identity_add_broadcast (stage block h w cin c1 c2 c3 ks : Nat) :
    outChannels (_identity_block stage block (S.input (h, w, cin)) (c1, c2, c3) ks) = none ↔
      (c3 ≠ cin ∧ c3 ≠ 1 ∧ cin ≠ 1) := by
  show mergeDim c3 cin = none ↔ (c3 ≠ cin ∧ c3 ≠ 1 ∧ cin ≠ 1)
  unfold mergeDim
  split_ifs with h1 h2 h3
  · simp [h1]
  · simp [h2]
  · simp [h3]
  · simp [h1, h2, h3]

/-- The 2-way normalized exponential computed by `tf.nn.softmax` on the final
logits (model.py line 251): entry `i` is `exp (z i) / (exp (z 0) + exp (z 1))`. -/
noncomputable def softmax (z : Fin 2 → ℝ) (i : Fin 2) : ℝ :=
  Real.exp (z i) / ∑ j, Real.exp (z j)

/-- C9: the assembled model's output is the softmax of the 2-unit dense head
— a vector of length exactly 2 — and for every logits vector the softmax's
entries are both non-negative and sum to exactly 1 (hence within any
floating-point tolerance). -/
theorem c9_output_distribution :
    (∀ s : Nat × Nat × Nat, ∃ body,
      make_open_nsfw_model_and_load_weights s = S.softmaxOp (S.dense "fc_nsfw" 2 body)) ∧
    (∀ z : Fin 2 → ℝ, (∀ i, 0 ≤ softmax z i) ∧ (∑ i, softmax z i) = 1) := by
  constructor
  · intro s
    exact ⟨_, rfl⟩
  · intro z
    have hpos : (0 : ℝ) < ∑ j, Real.exp (z j) :=
      Finset.sum_pos (fun j _ => Real.exp_pos (z j)) ⟨0, Finset.mem_univ 0⟩
    constructor
    · intro i
      exact div_nonneg (Real.exp_nonneg (z i)) hpos.le
    · unfold softmax
      rw [← Finset.sum_div]
      exact div_self hpos.ne'

end Opennsfw2
